import Mathlib

/-!
Verification of the neighbor-routing extension of the IBR-DTN daemon
(src/ibrdtn/daemon/src/routing/NeighborRoutingExtension.cpp).

The development shallowly embeds the routing component: endpoint
identifiers, bundle metadata, the per-neighbor candidate filter
(`BundleFilter`), the event handlers of `NeighborRoutingExtension::notify`
for transfer-completed and transfer-aborted events, and the dispatcher
worker loop of `NeighborRoutingExtension::run`.  The external bundle store
is modelled as a list of metadata records; its `remove`/`get` operations
signal a missing bundle through `Option`, mirroring the
`NoBundleFoundException` of the C++ interface.
-/

namespace NeighborRouting

/-- An endpoint identifier (`dtn::data::EID`): a node component plus an
application suffix.  `getNode` strips the application part. -/
structure EID where
  nodePart : String
  appPart : String
deriving DecidableEq

/-- `EID::getNode()`: the node component used for all routing comparisons. -/
def EID.getNode (e : EID) : String :=
  e.nodePart

/-- Bundle metadata (`dtn::data::MetaBundle`): the identity is abstracted to
a natural number; routing reads the destination EID, the
DESTINATION_IS_SINGLETON processing flag, and the scope-control hop count. -/
structure MetaBundle where
  ident : Nat
  destination : EID
  singleton : Bool
  hopcount : Nat
deriving DecidableEq

/-- A per-neighbor entry (`NeighborDatabase::NeighborEntry`): the neighbor's
EID, the known-bundle (summary) set and the in-transit set, both abstracted
to sets of bundle identities. -/
structure NeighborEntry where
  eid : EID
  known : List Nat
  transit : List Nat
deriving DecidableEq

/-- Modelled from the spec: `NeighborEntry::has` is declared in
`NeighborDatabase`, which is not among the given sources.  Spec rule 3 for
the candidate filter rejects a bundle when "the neighbor's known-bundle set
already contains this bundle identity", so `has` tests the known set. -/
def NeighborEntry.has (e : NeighborEntry) (meta : MetaBundle) : Bool :=
  e.known.contains meta.ident

/-- `BundleFilter::limit()` from the source: the bounded store query returns
at most this many candidates. -/
def BundleFilter.limit : Nat := 10

/-- `BundleFilter::shouldAdd` from the source: reject on zero hop count;
for singleton destinations reject local bundles and bundles whose
destination node differs from the neighbor's node; finally reject bundles
already known by the neighbor. -/
def BundleFilter.shouldAdd (localNode : String) (entry : NeighborEntry)
    (meta : MetaBundle) : Bool :=
  if meta.hopcount = 0 then
    false
  else if meta.singleton = true ∧ meta.destination.getNode = localNode then
    false
  else if meta.singleton = true ∧ entry.eid.getNode ≠ meta.destination.getNode then
    false
  else if entry.has meta = true then
    false
  else
    true

/-- The external bundle store, abstracted to the list of stored metadata. -/
abbrev Storage := List MetaBundle

/-- Whether the store holds a bundle with the given identity. -/
def containsBundle (s : Storage) (bid : Nat) : Bool :=
  s.any fun m => m.ident == bid

/-- `BundleStorage::get(id)`: `none` models `NoBundleFoundException`. -/
def getBundle (s : Storage) (bid : Nat) : Option MetaBundle :=
  s.find? fun m => m.ident == bid

/-- `BundleStorage::remove(id)`: removes the bundle with the given identity;
`none` models `NoBundleFoundException` when it is absent. -/
def removeBundle (s : Storage) (bid : Nat) : Option Storage :=
  if containsBundle s bid = true then
    some (s.filter fun m => m.ident != bid)
  else
    none

/-- Modelled from the spec: the store's bounded query applies the filter
predicate and the fixed result bound ("query(predicate, max_count)" of the
external-interfaces section); the store implementation is not among the
given sources. -/
def queryCandidates (localNode : String) (store : Storage)
    (entry : NeighborEntry) : List MetaBundle :=
  (store.filter fun m => BundleFilter.shouldAdd localNode entry m).take
    BundleFilter.limit

/-- Concrete data for witnesses and counterexamples. -/
def eidA : EID := ⟨"dtn://A", ""⟩

def eidB : EID := ⟨"dtn://B", "/app"⟩

def entryB : NeighborEntry := ⟨⟨"dtn://B", ""⟩, [], []⟩

def bundleToB : MetaBundle := ⟨7, eidB, true, 0⟩

def bundleToBLive : MetaBundle := ⟨8, eidB, true, 3⟩

def bundleLocalMulti : MetaBundle := ⟨9, eidA, false, 3⟩

/-- Claim C4: a bundle whose hop count is zero is rejected by the candidate
filter for every neighbor and every local node. -/
theorem hopcount_zero_never_admitted (localNode : String)
    (entry : NeighborEntry) (meta : MetaBundle) (h : meta.hopcount = 0) :
    BundleFilter.shouldAdd localNode entry meta = false := by
  simp [BundleFilter.shouldAdd, h]

/-- Witness for C4: the filter rejects a concrete zero-hop bundle. -/
theorem hopcount_zero_never_admitted_witness :
    bundleToB.hopcount = 0 ∧
      BundleFilter.shouldAdd "dtn://A" entryB bundleToB = false :=
  ⟨rfl, hopcount_zero_never_admitted "dtn://A" entryB bundleToB rfl⟩

/-- Claim C9: the maximum result count of the bounded store query is exactly
10, and every candidate query returns at most 10 bundles. -/
theorem query_limit_is_ten (localNode : String) (store : Storage)
    (entry : NeighborEntry) :
    BundleFilter.limit = 10 ∧
      (queryCandidates localNode store entry).length ≤ 10 := by
  refine ⟨rfl, ?_⟩
  calc (queryCandidates localNode store entry).length
      ≤ BundleFilter.limit := List.length_take_le _ _
    _ = 10 := rfl

/-- Claim C10: for a bundle without the singleton flag the local-node and
destination-node checks are skipped; it is admitted for any neighbor iff its
hop count is nonzero and it is not in the neighbor's known set. -/
theorem nonsingleton_admission (localNode : String) (entry : NeighborEntry)
    (meta : MetaBundle) (hsing : meta.singleton = false) :
    BundleFilter.shouldAdd localNode entry meta = true ↔
      (meta.hopcount ≠ 0 ∧ entry.has meta = false) := by
  simp [BundleFilter.shouldAdd, hsing]

/-- Witness for C10: a concrete non-singleton bundle whose destination node
equals the local node is still admitted. -/
theorem nonsingleton_admission_witness :
    bundleLocalMulti.singleton = false ∧
      bundleLocalMulti.destination.getNode = "dtn://A" ∧
      BundleFilter.shouldAdd "dtn://A" entryB bundleLocalMulti = true :=
  ⟨rfl, rfl,
    (nonsingleton_admission "dtn://A" entryB bundleLocalMulti rfl).mpr
      ⟨by decide, rfl⟩⟩

/-- Counterexample for C3: a singleton bundle whose destination node equals
the neighbor's node and differs from the local node, yet the filter rejects
it because its hop count is zero, refuting the claimed equivalence. -/
theorem singleton_iff_counterexample :
    bundleToB.singleton = true ∧
      entryB.eid.getNode = bundleToB.destination.getNode ∧
      "dtn://A" ≠ bundleToB.destination.getNode ∧
      BundleFilter.shouldAdd "dtn://A" entryB bundleToB = false := by
  refine ⟨rfl, rfl, ?_, rfl⟩
  decide

/-- Claim C3 (amended): for a singleton bundle with nonzero hop count that
is not in the neighbor's known set, the filter admits it iff the neighbor's
node equals the destination node and the destination node is not the local
node. -/
theorem singleton_admission (localNode : String) (entry : NeighborEntry)
    (meta : MetaBundle) (hsing : meta.singleton = true)
    (hhop : meta.hopcount ≠ 0) (hknown : entry.has meta = false) :
    BundleFilter.shouldAdd localNode entry meta = true ↔
      (entry.eid.getNode = meta.destination.getNode ∧
        meta.destination.getNode ≠ localNode) := by
  simp [BundleFilter.shouldAdd, hsing, hhop, hknown]
  tauto

/-- Witness for C3 (amended): a concrete live singleton bundle for neighbor
B is admitted when the local node is A. -/
theorem singleton_admission_witness :
    bundleToBLive.singleton = true ∧ bundleToBLive.hopcount ≠ 0 ∧
      entryB.has bundleToBLive = false ∧
      BundleFilter.shouldAdd "dtn://A" entryB bundleToBLive = true :=
  ⟨rfl, by decide, rfl,
    (singleton_admission "dtn://A" entryB bundleToBLive rfl (by decide)
        rfl).mpr ⟨rfl, by decide⟩⟩

/-- A routing task (`SearchNextBundleTask` / `ProcessBundleTask`). -/
inductive Task where
  | searchNextBundle (eid : EID)
  | processBundle (bundle : MetaBundle) (origin : EID)
deriving DecidableEq

/-- The reason codes of `TransferAbortedEvent`. -/
inductive AbortReason where
  | undefined
  | retryLimitReached
  | bundleDeleted
  | connectionDown
  | refused
deriving DecidableEq

/-- Outcome of one `notify` invocation: the store afterwards, the bundle
identities for which a delivered-status report was raised, and the tasks
pushed onto the task queue, in order. -/
structure NotifyResult where
  store : Storage
  reports : List Nat
  tasks : List Task
deriving DecidableEq

/-- The transfer-completed branch of `NeighborRoutingExtension::notify`:
when the destination node equals the peer node and the singleton flag is
set, the bundle is removed from the store (a missing bundle is tolerated),
a delivered report is raised on successful removal, and a
`SearchNextBundle` task for the peer is pushed; all of this happens inside
the conditional, so nothing at all is done otherwise. -/
def handleTransferCompleted (store : Storage) (meta : MetaBundle)
    (peer : EID) : NotifyResult :=
  if meta.destination.getNode = peer.getNode ∧ meta.singleton = true then
    match removeBundle store meta.ident with
    | some store2 => ⟨store2, [meta.ident], [Task.searchNextBundle peer]⟩
    | none => ⟨store, [], [Task.searchNextBundle peer]⟩
  else
    ⟨store, [], []⟩

/-- The transfer-aborted branch of `NeighborRoutingExtension::notify`:
`connectionDown` returns immediately; `refused` looks the bundle up and
removes it when it is a singleton destined for the peer (a missing bundle
is tolerated); every reason except `connectionDown` then pushes a
`SearchNextBundle` task for the peer. -/
def handleTransferAborted (store : Storage) (reason : AbortReason)
    (peer : EID) (bid : Nat) : NotifyResult :=
  match reason with
  | AbortReason.connectionDown => ⟨store, [], []⟩
  | AbortReason.refused =>
    (match getBundle store bid with
      | some meta =>
        if meta.destination.getNode = peer.getNode ∧ meta.singleton = true then
          match removeBundle store bid with
          | some store2 => ⟨store2, [], [Task.searchNextBundle peer]⟩
          | none => ⟨store, [], [Task.searchNextBundle peer]⟩
        else
          ⟨store, [], [Task.searchNextBundle peer]⟩
      | none => ⟨store, [], [Task.searchNextBundle peer]⟩)
  | _ => ⟨store, [], [Task.searchNextBundle peer]⟩

lemma containsBundle_filter_ne (s : Storage) (bid : Nat) :
    containsBundle (s.filter fun m => m.ident != bid) bid = false := by
  simp [containsBundle, List.any_eq_true, List.mem_filter]

lemma removeBundle_not_contains (s s2 : Storage) (bid : Nat)
    (h : removeBundle s bid = some s2) : containsBundle s2 bid = false := by
  unfold removeBundle at h
  split at h
  · cases h
    exact containsBundle_filter_ne s bid
  · cases h

lemma getBundle_some_contains (s : Storage) (bid : Nat) (meta : MetaBundle)
    (h : getBundle s bid = some meta) : containsBundle s bid = true := by
  have hm := List.mem_of_find?_eq_some h
  have hp := List.find?_some h
  simp only [containsBundle, List.any_eq_true]
  exact ⟨meta, hm, hp⟩

/-- Counterexample for C1: a transfer-completed event that fails the
delivery condition (peer A, bundle destined for B) pushes no task at all,
refuting the claim that a `SearchNextBundle` task is pushed. -/
theorem completed_otherwise_counterexample :
    ¬(bundleToBLive.destination.getNode = eidA.getNode ∧
        bundleToBLive.singleton = true) ∧
      (handleTransferCompleted [bundleToBLive] bundleToBLive eidA).tasks
        = [] := by
  refine ⟨?_, rfl⟩
  intro h
  exact absurd h.1 (by decide)

/-- Claim C1 (amended): for a transfer-completed event that does not satisfy
the delivery condition, the handler does nothing: the store is unchanged, no
report is raised and no task is pushed. -/
theorem completed_otherwise_no_action (store : Storage) (meta : MetaBundle)
    (peer : EID)
    (h : ¬(meta.destination.getNode = peer.getNode ∧ meta.singleton = true)) :
    handleTransferCompleted store meta peer = ⟨store, [], []⟩ := by
  unfold handleTransferCompleted
  rw [if_neg h]

/-- Witness for C1 (amended): the concrete non-delivery event leaves
everything unchanged. -/
theorem completed_otherwise_no_action_witness :
    handleTransferCompleted [bundleToBLive] bundleToBLive eidA
      = ⟨[bundleToBLive], [], []⟩ :=
  completed_otherwise_no_action [bundleToBLive] bundleToBLive eidA
    (by intro h; exact absurd h.1 (by decide))

/-- Claim C5: a delivered singleton bundle is removed exactly once and
reported exactly once; a duplicate completed event afterwards finds the
bundle absent, emits no further report, leaves the store unchanged, and
still pushes a `SearchNextBundle` task for the peer. -/
theorem delivery_exactly_once (store : Storage) (meta : MetaBundle)
    (peer : EID) (hdest : meta.destination.getNode = peer.getNode)
    (hsing : meta.singleton = true)
    (hin : containsBundle store meta.ident = true) :
    (handleTransferCompleted store meta peer).reports = [meta.ident] ∧
    containsBundle (handleTransferCompleted store meta peer).store meta.ident
        = false ∧
    (handleTransferCompleted store meta peer).tasks
        = [Task.searchNextBundle peer] ∧
    (handleTransferCompleted (handleTransferCompleted store meta peer).store
        meta peer).reports = [] ∧
    (handleTransferCompleted (handleTransferCompleted store meta peer).store
        meta peer).store = (handleTransferCompleted store meta peer).store ∧
    (handleTransferCompleted (handleTransferCompleted store meta peer).store
        meta peer).tasks = [Task.searchNextBundle peer] := by
  have hcond : meta.destination.getNode = peer.getNode ∧ meta.singleton = true :=
    ⟨hdest, hsing⟩
  have hrm : removeBundle store meta.ident
      = some (store.filter fun m => m.ident != meta.ident) := by
    unfold removeBundle
    rw [if_pos hin]
  have h1 : handleTransferCompleted store meta peer
      = ⟨store.filter fun m => m.ident != meta.ident, [meta.ident],
          [Task.searchNextBundle peer]⟩ := by
    unfold handleTransferCompleted
    rw [if_pos hcond, hrm]
  have hnc : containsBundle (store.filter fun m => m.ident != meta.ident)
      meta.ident = false := containsBundle_filter_ne store meta.ident
  have hrm2 : removeBundle (store.filter fun m => m.ident != meta.ident)
      meta.ident = none := by
    unfold removeBundle
    rw [hnc]
    simp
  have h2 : handleTransferCompleted
        (store.filter fun m => m.ident != meta.ident) meta peer
      = ⟨store.filter fun m => m.ident != meta.ident, [],
          [Task.searchNextBundle peer]⟩ := by
    unfold handleTransferCompleted
    rw [if_pos hcond, hrm2]
  rw [h1]
  dsimp only
  rw [h2]
  exact ⟨rfl, hnc, rfl, rfl, rfl, rfl⟩

/-- Witness for C5: the concrete delivery of the live bundle to peer B,
followed by a duplicate event. -/
theorem delivery_exactly_once_witness :
    (handleTransferCompleted [bundleToBLive] bundleToBLive eidB).reports
        = [bundleToBLive.ident] ∧
    (handleTransferCompleted
        (handleTransferCompleted [bundleToBLive] bundleToBLive eidB).store
        bundleToBLive eidB).reports = [] ∧
    (handleTransferCompleted
        (handleTransferCompleted [bundleToBLive] bundleToBLive eidB).store
        bundleToBLive eidB).tasks = [Task.searchNextBundle eidB] := by
  have h := delivery_exactly_once [bundleToBLive] bundleToBLive eidB rfl rfl rfl
  exact ⟨h.1, h.2.2.2.1, h.2.2.2.2.2⟩

/-- Claim C6: a refused transfer abort always pushes a `SearchNextBundle`
task for the peer; when the bundle is present, singleton and destined for
the peer it is removed from the store, and in every other refused case the
store is unchanged. -/
theorem refused_policy (store : Storage) (peer : EID) (bid : Nat) :
    (handleTransferAborted store AbortReason.refused peer bid).tasks
        = [Task.searchNextBundle peer] ∧
    (∀ meta, getBundle store bid = some meta →
      meta.destination.getNode = peer.getNode → meta.singleton = true →
      (handleTransferAborted store AbortReason.refused peer bid).store
          = (store.filter fun m => m.ident != bid) ∧
        containsBundle
          (handleTransferAborted store AbortReason.refused peer bid).store bid
          = false) ∧
    (∀ meta, getBundle store bid = some meta →
      ¬(meta.destination.getNode = peer.getNode ∧ meta.singleton = true) →
      (handleTransferAborted store AbortReason.refused peer bid).store
        = store) ∧
    (getBundle store bid = none →
      (handleTransferAborted store AbortReason.refused peer bid).store
        = store) := by
  cases hget : getBundle store bid with
  | none =>
    refine ⟨?_, ?_, ?_, ?_⟩
    · simp [handleTransferAborted, hget]
    · intro meta hm
      exact Option.noConfusion hm
    · intro meta hm
      exact Option.noConfusion hm
    · intro _
      simp [handleTransferAborted, hget]
  | some m =>
    by_cases hc : m.destination.getNode = peer.getNode ∧ m.singleton = true
    · have hin := getBundle_some_contains store bid m hget
      have hrm : removeBundle store bid
          = some (store.filter fun x => x.ident != bid) := by
        unfold removeBundle
        rw [if_pos hin]
      have hres : handleTransferAborted store AbortReason.refused peer bid
          = ⟨store.filter fun x => x.ident != bid, [],
              [Task.searchNextBundle peer]⟩ := by
        simp [handleTransferAborted, hget, if_pos hc, hrm]
      refine ⟨?_, ?_, ?_, ?_⟩
      · rw [hres]
      · intro meta hm _ _
        rw [hres]
        exact ⟨rfl, containsBundle_filter_ne store bid⟩
      · intro meta hm hnc
        injection hm with hm
        subst hm
        exact absurd hc hnc
      · intro h
        exact Option.noConfusion h
    · have hres : handleTransferAborted store AbortReason.refused peer bid
          = ⟨store, [], [Task.searchNextBundle peer]⟩ := by
        simp [handleTransferAborted, hget, if_neg hc]
      refine ⟨?_, ?_, ?_, ?_⟩
      · rw [hres]
      · intro meta hm hd hs
        injection hm with hm
        subst hm
        exact absurd ⟨hd, hs⟩ hc
      · intro meta hm _
        rw [hres]
      · intro h
        exact Option.noConfusion h

/-- Witness for C6: the concrete refused abort of the live bundle for peer
B removes it and still pushes the task. -/
theorem refused_policy_witness :
    (handleTransferAborted [bundleToBLive] AbortReason.refused eidB
        bundleToBLive.ident).tasks = [Task.searchNextBundle eidB] ∧
    containsBundle (handleTransferAborted [bundleToBLive] AbortReason.refused
        eidB bundleToBLive.ident).store bundleToBLive.ident = false := by
  have h := refused_policy [bundleToBLive] eidB bundleToBLive.ident
  exact ⟨h.1, (h.2.1 bundleToBLive rfl rfl rfl).2⟩

/-- Claim C7: a connection-down transfer abort performs no store mutation,
raises no report and pushes no task. -/
theorem connectionDown_noop (store : Storage) (peer : EID) (bid : Nat) :
    (handleTransferAborted store AbortReason.connectionDown peer bid).store
        = store ∧
    (handleTransferAborted store AbortReason.connectionDown peer bid).reports
        = [] ∧
    (handleTransferAborted store AbortReason.connectionDown peer bid).tasks
        = [] :=
  ⟨rfl, rfl, rfl⟩

/-- Outcome of executing one dequeued task against the environment
(storage, neighbor database, transport).  The first four non-success
outcomes are the expected conditions that `NeighborRoutingExtension::run`
catches around the task body; `unexpected` is any other `std::exception`. -/
inductive ExecOutcome where
  | success
  | alreadyInTransit
  | noMoreTransfers
  | neighborNotAvailable
  | badCast
  | unexpected (msg : String)
deriving DecidableEq

/-- Whether an outcome escapes every inner catch of the worker loop. -/
def ExecOutcome.isUnexpected : ExecOutcome → Bool
  | ExecOutcome.unexpected _ => true
  | _ => false

/-- The dispatcher worker loop of `NeighborRoutingExtension::run`, applied
to a finite queue of tasks.  Expected conditions are caught next to the task
body and the loop moves on; any other exception reaches the outer catch,
which logs "neighbor routing failed" and RETURNS, ending the loop.  The
result is the list of tasks actually dequeued and executed, together with
the logged error messages. -/
def run (exec : Task → ExecOutcome) : List Task → List Task × List String
  | [] => ([], [])
  | t :: ts =>
    match exec t with
    | ExecOutcome.unexpected msg =>
      ([t], ["neighbor routing failed: " ++ msg])
    | _ =>
      let r := run exec ts
      (t :: r.1, r.2)

/-- An execution oracle under which the task for neighbor A fails with an
unexpected error and every other task succeeds. -/
def failOnA : Task → ExecOutcome :=
  fun t =>
    match t with
    | Task.searchNextBundle e =>
      if e.getNode = "dtn://A" then ExecOutcome.unexpected "io error"
      else ExecOutcome.success
    | Task.processBundle _ _ => ExecOutcome.success

/-- Counterexample for C2: with a task that raises an unexpected error at
the head of the queue, the worker loop stops and the following task is
never processed, refuting the claim that the loop continues. -/
theorem dispatcher_isolation_counterexample :
    (failOnA (Task.searchNextBundle eidA)).isUnexpected = true ∧
      (run failOnA [Task.searchNextBundle eidA, Task.searchNextBundle eidB]).1
        = [Task.searchNextBundle eidA] ∧
      Task.searchNextBundle eidB ∉
        (run failOnA
          [Task.searchNextBundle eidA, Task.searchNextBundle eidB]).1 := by
  refine ⟨rfl, rfl, ?_⟩
  decide

lemma run_cons_unexpected (exec : Task → ExecOutcome) (t : Task)
    (ts : List Task) (msg : String)
    (h : exec t = ExecOutcome.unexpected msg) :
    run exec (t :: ts) = ([t], ["neighbor routing failed: " ++ msg]) := by
  simp only [run, h]

lemma run_cons_expected (exec : Task → ExecOutcome) (t : Task)
    (ts : List Task) (h : (exec t).isUnexpected = false) :
    run exec (t :: ts) = (t :: (run exec ts).1, (run exec ts).2) := by
  cases hx : exec t
  case unexpected msg =>
    rw [hx] at h
    exact absurd h (by simp [ExecOutcome.isUnexpected])
  all_goals simp only [run, hx]

/-- Claim C2 (amended): a task whose execution raises an unexpected error is
logged and TERMINATES the worker loop, leaving the rest of the queue
unprocessed; a task that raises only expected conditions (or succeeds) does
not stop the loop, which continues with the next task. -/
theorem dispatcher_error_policy (exec : Task → ExecOutcome) (t : Task)
    (ts : List Task) :
    ((exec t).isUnexpected = true →
      (run exec (t :: ts)).1 = [t] ∧ (run exec (t :: ts)).2 ≠ []) ∧
    ((exec t).isUnexpected = false →
      run exec (t :: ts) = (t :: (run exec ts).1, (run exec ts).2)) := by
  constructor
  · intro h
    have hmsg : ∃ msg, exec t = ExecOutcome.unexpected msg := by
      cases hx : exec t <;> rw [hx] at h <;>
        simp [ExecOutcome.isUnexpected] at h
      exact ⟨_, rfl⟩
    obtain ⟨msg, hx⟩ := hmsg
    rw [run_cons_unexpected exec t ts msg hx]
    exact ⟨rfl, by simp⟩
  · exact run_cons_expected exec t ts

/-- Witness for C2 (amended): the concrete failing task is logged and is the
only task processed; a succeeding task lets the loop continue. -/
theorem dispatcher_error_policy_witness :
    ((failOnA (Task.searchNextBundle eidA)).isUnexpected = true ∧
      (run failOnA [Task.searchNextBundle eidA]).1
        = [Task.searchNextBundle eidA]) ∧
    ((failOnA (Task.searchNextBundle eidB)).isUnexpected = false ∧
      run failOnA [Task.searchNextBundle eidB]
        = ([Task.searchNextBundle eidB], [])) := by
  constructor
  · have h := dispatcher_error_policy failOnA (Task.searchNextBundle eidA) []
    exact ⟨by decide, (h.1 (by decide)).1⟩
  · have h := dispatcher_error_policy failOnA (Task.searchNextBundle eidB) []
    exact ⟨by decide, h.2 (by decide)⟩

/-- Modelled from the spec: `try_begin_transfer` of the Neighbor Directory
(`NeighborEntry::acquireTransfer`, not among the given sources) atomically
inserts the bundle identity into the in-transit set and fails with
already-in-transit when it is present. -/
def acquireTransfer (entry : NeighborEntry) (bid : Nat) :
    Option NeighborEntry :=
  if entry.transit.contains bid = true then
    none
  else
    some ⟨entry.eid, entry.known, bid :: entry.transit⟩

/-- One iteration of the send loop in the `SearchNextBundleTask` branch of
`run`: attempt to reserve the candidate; an already-in-transit failure is
skipped silently. -/
def transferStep (acc : NeighborEntry × List Nat) (m : MetaBundle) :
    NeighborEntry × List Nat :=
  match acquireTransfer acc.1 m.ident with
  | some e2 => (e2, acc.2 ++ [m.ident])
  | none => acc

/-- Execution of one `SearchNextBundleTask`: query the store through the
candidate filter, then try to transfer each returned candidate.  Returns
the updated neighbor entry and the identities submitted to the transport. -/
def execSearch (localNode : String) (store : Storage)
    (entry : NeighborEntry) : NeighborEntry × List Nat :=
  (queryCandidates localNode store entry).foldl transferStep (entry, [])

lemma transferStep_eid_known (acc : NeighborEntry × List Nat)
    (m : MetaBundle) :
    (transferStep acc m).1.eid = acc.1.eid ∧
      (transferStep acc m).1.known = acc.1.known := by
  unfold transferStep acquireTransfer
  by_cases hb : acc.1.transit.contains m.ident = true
  · rw [if_pos hb]
    exact ⟨rfl, rfl⟩
  · rw [if_neg hb]
    exact ⟨rfl, rfl⟩

lemma foldl_transferStep_eid_known (l : List MetaBundle)
    (acc : NeighborEntry × List Nat) :
    (l.foldl transferStep acc).1.eid = acc.1.eid ∧
      (l.foldl transferStep acc).1.known = acc.1.known := by
  induction l generalizing acc with
  | nil => exact ⟨rfl, rfl⟩
  | cons m ms ih =>
    rw [List.foldl_cons]
    have h1 := ih (transferStep acc m)
    have h2 := transferStep_eid_known acc m
    exact ⟨h1.1.trans h2.1, h1.2.trans h2.2⟩

lemma shouldAdd_known_congr (localNode : String) (e1 e2 : NeighborEntry)
    (meta : MetaBundle) (heid : e1.eid = e2.eid) (hkn : e1.known = e2.known) :
    BundleFilter.shouldAdd localNode e1 meta
      = BundleFilter.shouldAdd localNode e2 meta := by
  simp only [BundleFilter.shouldAdd, NeighborEntry.has, heid, hkn]

lemma queryCandidates_known_congr (localNode : String) (store : Storage)
    (e1 e2 : NeighborEntry) (heid : e1.eid = e2.eid)
    (hkn : e1.known = e2.known) :
    queryCandidates localNode store e1 = queryCandidates localNode store e2 := by
  unfold queryCandidates
  have hfun : (fun m => BundleFilter.shouldAdd localNode e1 m)
      = fun m => BundleFilter.shouldAdd localNode e2 m :=
    funext fun m => shouldAdd_known_congr localNode e1 e2 m heid hkn
  rw [hfun]

/-- Claim C8: executing the same `SearchNextBundle` task a second time with
no intervening store change yields a candidate query that is a subset
(non-increasing) of the first invocation's query; the first execution only
grows the in-transit set, which the filter does not consult, so the second
query is in fact equal to the first. -/
theorem second_search_subset (localNode : String) (store : Storage)
    (entry : NeighborEntry) :
    queryCandidates localNode store (execSearch localNode store entry).1
      ⊆ queryCandidates localNode store entry := by
  have hp := foldl_transferStep_eid_known
    (queryCandidates localNode store entry) (entry, [])
  have heq : queryCandidates localNode store
        (execSearch localNode store entry).1
      = queryCandidates localNode store entry :=
    queryCandidates_known_congr localNode store _ entry hp.1 hp.2
  rw [heq]
  exact fun x hx => hx

end NeighborRouting
